import Mathlib

/-!
Verification of the `market_data.py` pipeline (fetch, merge, format, publish).

Dates are modelled as integer day ordinals (`Int`); a `Series` is a partial
map from days to rational observations (absence models NaN / a missing row).
Python strings are modelled as `List Char`, so that the character-level
operations of the script (`str.replace`, `str.split`, `str.strip`) have
direct structural embeddings.
-/

namespace MarketData

/-- A Python string, modelled as its list of characters. -/
abbrev Str := List Char

/-- Configured lookback window in days (`PERIOD_DAYS = 200`, line 48). -/
def PERIOD_DAYS : Nat := 200

/-- The `days_back` argument `main` passes to `fetch_fred_data` (line 255). -/
def FRED_DAYS_BACK : Nat := 30

/-- The run's window start (line 162): `end_date - timedelta(days=PERIOD_DAYS - 1)`. -/
def startDate (endDate : Int) : Int := endDate - ((PERIOD_DAYS : Int) - 1)

/-- The full daily calendar of the window, inclusive on both ends
(`pd.date_range(start=start_date, end=end_date, freq=chr(68))`, line 278). -/
def dateRange (s e : Int) : List Int :=
  (List.range (e - s + 1).toNat).map (fun i : Nat => s + (i : Int))

/-- A date-indexed series of observations: `none` is an absent observation. -/
def Series := Int → Option Rat

/-- The `all_data` mapping: fetch order is preserved (Python dicts keep
insertion order), values are the per-feed series. -/
def FeedData := List (Str × Series)

/-- The Combined Table of the merge step (lines 278-283): the row index is the
full daily calendar; each fetched series becomes one column, aligned by date
(column assignment in pandas reindexes the series onto the frame's index, so
dates absent from a series leave the cell empty and the index is unchanged). -/
structure CombinedTable where
  rows : List Int
  feeds : FeedData

/-- The merge step: index = `date_range`, one column per fetched series. -/
def mergeTable (data : FeedData) (s e : Int) : CombinedTable :=
  { rows := dateRange s e, feeds := data }

/-- Python `str.replace` for a single-character pattern: every occurrence of
`old` is replaced by the string `new`. -/
def replaceChar (old : Char) (new : Str) : Str → Str
  | [] => []
  | c :: cs => (if c = old then new else [c]) ++ replaceChar old new cs

/-- Column-name sanitization of the formatter (line 301):
`col.replace(dash, underscore).replace(caret, empty).replace(dot, underscore)`.
Note the caret is replaced by the EMPTY string, not by an underscore. -/
def sanitizeCol (s : Str) : Str :=
  replaceChar '.' ['_'] (replaceChar '^' [] (replaceChar '-' ['_'] s))

/-- Modelled from the spec claim's wording: each occurrence of the characters
dash, caret and dot replaced by an underscore. Used only to compare the
claimed transformation against `sanitizeCol`. -/
def sanitizeColSpec (s : Str) : Str :=
  replaceChar '.' ['_'] (replaceChar '^' ['_'] (replaceChar '-' ['_'] s))

/-- Per-character description of what line 301 actually does: dash and dot
become an underscore, a caret is deleted, everything else is kept. -/
def sanitizeCharwise : Str → Str
  | [] => []
  | c :: cs =>
    (if c = '^' then [] else if c = '-' ∨ c = '.' then ['_'] else [c]) ++
      sanitizeCharwise cs

/-- Helper for Python `str.split(sep)`: returns (current field, completed
fields after it). -/
def splitSepP (sep : Char) : Str → Str × List Str
  | [] => ([], [])
  | c :: cs =>
    let r := splitSepP sep cs
    if c = sep then ([], r.1 :: r.2) else (c :: r.1, r.2)

/-- Python `str.split(sep)` for a one-character separator: keeps empty fields,
and splitting the empty string yields one empty field. -/
def splitSep (sep : Char) (s : Str) : List Str :=
  (splitSepP sep s).1 :: (splitSepP sep s).2

/-- Whitespace characters removed by Python `str.strip()`. -/
def isSpaceCh (c : Char) : Bool :=
  c = ' ' ∨ c = '\t' ∨ c = '\n' ∨ c = '\r' ∨ c = '\x0b' ∨ c = '\x0c'

/-- Python `str.strip()`: drop whitespace from both ends. -/
def stripWs (s : Str) : Str :=
  ((s.dropWhile isSpaceCh).reverse.dropWhile isSpaceCh).reverse

/-- Numeric value of a digit string. -/
def digitsToNat (s : Str) : Nat :=
  s.foldl (fun a c => a * 10 + (c.toNat - '0'.toNat)) 0

/-- Parse a nonempty all-digit field as a natural number. -/
def parseNatField (s : Str) : Option Nat :=
  if !s.isEmpty && s.all Char.isDigit then some (digitsToNat s) else none

/-- A calendar date, as produced by the volatility-index line parser. -/
structure Date where
  year : Nat
  month : Nat
  day : Nat
deriving DecidableEq, Repr

/-- Gregorian leap-year rule. -/
def isLeap (y : Nat) : Bool :=
  decide ((y % 4 = 0 ∧ y % 100 ≠ 0) ∨ y % 400 = 0)

/-- Number of days of a month. -/
def daysInMonth (y m : Nat) : Nat :=
  if m = 2 then (if isLeap y then 29 else 28)
  else if m = 4 ∨ m = 6 ∨ m = 9 ∨ m = 11 then 30
  else 31

/-- Strict day.month.year parsing, embedding
`pd.to_datetime(date_str, format=...)` with format day.month.year (line 218):
day and month are 1-2 digit fields, the year is exactly 4 digits, the whole
string must be consumed, and the day must exist in the given month
(`strptime`-style validation). The upper `pd.Timestamp` bound (year 2262) is
not modelled; no claim depends on it. -/
def parseDMY (s : Str) : Option Date :=
  match splitSep '.' s with
  | [d, m, y] =>
    match parseNatField d, parseNatField m, parseNatField y with
    | some dv, some mv, some yv =>
      if d.length ≤ 2 ∧ m.length ≤ 2 ∧ y.length = 4 ∧ 1 ≤ yv ∧
          1 ≤ mv ∧ mv ≤ 12 ∧ 1 ≤ dv ∧ dv ≤ daysInMonth yv mv
      then some ⟨yv, mv, dv⟩ else none
    | _, _, _ => none
  | _ => none

/-- Mantissa of a Python float literal: digits with at most one point and at
least one digit overall. -/
def parseMantissa (s : Str) : Option Rat :=
  match splitSep '.' s with
  | [i] =>
    if !i.isEmpty && i.all Char.isDigit then some (digitsToNat i : Rat) else none
  | [i, f] =>
    if !(i ++ f).isEmpty && i.all Char.isDigit && f.all Char.isDigit
    then some ((digitsToNat (i ++ f) : Rat) / (10 : Rat) ^ f.length)
    else none
  | _ => none

/-- Exponent of a Python float literal: optional sign, nonempty digits. -/
def parseExp (s : Str) : Option Int :=
  match s with
  | '+' :: r => (parseNatField r).map (fun n => (n : Int))
  | '-' :: r => (parseNatField r).map (fun n => -(n : Int))
  | r => (parseNatField r).map (fun n => (n : Int))

/-- Python `float(s)` on the decimal-literal subset: optional sign, decimal
mantissa, optional exponent. The special forms that never occur in this data
(inf, nan, underscores in digit groups, hex floats) are not modelled; on
every other input the result is exact (`Rat`), which a Python float only
approximates. -/
def pyFloat (s : Str) : Option Rat :=
  let body := s.map (fun c => if c = 'E' then 'e' else c)
  let signed : Rat × Str :=
    match body with
    | '+' :: r => (1, r)
    | '-' :: r => (-1, r)
    | r => (1, r)
  match splitSep 'e' signed.2 with
  | [m] => (parseMantissa m).map (fun v => signed.1 * v)
  | [m, ex] =>
    match parseMantissa m, parseExp ex with
    | some mv, some ev => some (signed.1 * mv * (10 : Rat) ^ ev)
    | _, _ => none
  | _ => none

/-- One iteration of the V2TX parse loop (lines 213-221): split the line on
semicolons, require exactly three fields, read the value from the third field
with `float` and the date from the first with the fixed day.month.year format;
a `ValueError` in either conversion skips the line. -/
def parseV2TXLine (line : Str) : Option (Date × Rat) :=
  let parts := splitSep ';' line
  if parts.length = 3 then
    match pyFloat (stripWs (parts.getD 2 [])), parseDMY (stripWs (parts.getD 0 [])) with
    | some v, some d => some (d, v)
    | _, _ => none
  else none

/-- The V2TX parse loop over the lines after the header (lines 211-221): each
well-formed line appends its (date, value) pair, every other line is skipped
and the loop continues. -/
def parseV2TXLines : List Str → List (Date × Rat)
  | [] => []
  | l :: ls =>
    match parseV2TXLine l with
    | some p => p :: parseV2TXLines ls
    | none => parseV2TXLines ls

/-- Start of the FRED request window (line 58):
`fred_end - timedelta(days=days_back - 1)`. -/
def fred_start (today : Int) (days_back : Nat) : Int :=
  today - ((days_back : Int) - 1)

/-- End of the FRED request window (line 57): today. -/
def fred_end (today : Int) : Int := today

/-- The FRED request URL (lines 60-65), with the date-to-string rendering
abstracted as `fmt`. -/
def fredUrl (seriesId : Str) (fmt : Int → Str) (today : Int) : Str :=
  ("https://fred.stlouisfed.org/graph/fredgraph.csv?id=".data) ++ seriesId ++
  ("&cosd=".data) ++ fmt (fred_start today FRED_DAYS_BACK) ++
  ("&coed=".data) ++ fmt (fred_end today)

/-- The (start, end) query-parameter window of the FRED URL as `main` builds
it (line 255 passes `days_back = 30`). -/
def fredUrlWindow (today : Int) : Int × Int :=
  (fred_start today FRED_DAYS_BACK, fred_end today)

/-- The run's configured window (lines 161-162). -/
def runWindow (e : Int) : Int × Int := (startDate e, e)

/-- The fields of the publish endpoint's JSON reply that `main` reads. -/
structure SheetsResult where
  success : Bool
  error : Str
  rows_added : Nat
  historical_rows : Nat
deriving DecidableEq, Repr

/-- Outcome of the POST of `send_to_google_sheets` (lines 133-156): either the
request raised a transport-level exception, or a response arrived with a
status code, a body, and the result of parsing the body as JSON (`none` when
`response.json()` raises). -/
inductive PostOutcome where
  | exn (desc : Str)
  | response (status : Nat) (body : Str) (json : Option SheetsResult)
deriving DecidableEq

/-- The decision logic of `send_to_google_sheets` (lines 133-156): a
transport exception, a non-200 status, or an unparsable 200 body all return
`None`; a parsed 200 body is returned to the caller. The component never
raises (it is a total function). -/
def send_to_google_sheets (o : PostOutcome) : Option SheetsResult :=
  match o with
  | .exn _ => none
  | .response status _ j => if status = 200 then j else none

/-- The publish outcomes the spec classifies as failures: transport error,
non-200 status, or a 200 body that is not valid JSON. -/
def isPublishFailureB (o : PostOutcome) : Bool :=
  match o with
  | .exn _ => true
  | .response status _ j => if status = 200 then j.isNone else true

/-- Observable outcome of one `main()` run. -/
structure RunReport where
  publishAttempted : Bool
  success : Bool
  noDataEarlyExit : Bool
deriving DecidableEq, Repr

/-- Control flow of `main` after fetching (lines 271-365): an empty `all_data`
reports "No data fetched" and returns False before any publish; otherwise the
merged frame is built and, being nonempty, the CSV is sent; a `None` or
`success:false` reply makes the run fail. -/
def mainRun (e : Int) (allData : FeedData) (post : PostOutcome) : RunReport :=
  if allData.isEmpty then
    { publishAttempted := false, success := false, noDataEarlyExit := true }
  else if (mergeTable allData (startDate e) e).rows.isEmpty then
    { publishAttempted := false, success := false, noDataEarlyExit := false }
  else
    match send_to_google_sheets post with
    | some r =>
      if r.success then
        { publishAttempted := true, success := true, noDataEarlyExit := false }
      else
        { publishAttempted := true, success := false, noDataEarlyExit := false }
    | none =>
      { publishAttempted := true, success := false, noDataEarlyExit := false }

/-- Process exit code (lines 368-384): `main` returning True exits 0, False
exits 1 (an uncaught exception also exits 1). -/
def exitCode (r : RunReport) : Nat := if r.success then 0 else 1

/-- Observable outcome of the whole script, configuration check included. -/
structure ProgramReport where
  exitCode : Nat
  fetchAttempted : Bool
  publishAttempted : Bool
deriving DecidableEq, Repr

/-- The module-level script (lines 34-43 then 368-384): a missing — or empty,
since Python tests falsiness — `WEB_APP_URL` exits 1 before any fetch or
publish is attempted; otherwise `main` runs, which always fetches. -/
def script (webAppUrl : Option Str) (e : Int) (allData : FeedData)
    (post : PostOutcome) : ProgramReport :=
  match webAppUrl with
  | none => { exitCode := 1, fetchAttempted := false, publishAttempted := false }
  | some url =>
    if url.isEmpty then
      { exitCode := 1, fetchAttempted := false, publishAttempted := false }
    else
      let r := mainRun e allData post
      { exitCode := exitCode r, fetchAttempted := true,
        publishAttempted := r.publishAttempted }

/-- Descending insertion of a day into a descending-sorted list. -/
def insertDesc (x : Int) : List Int → List Int
  | [] => [x]
  | y :: ys => if y ≤ x then x :: y :: ys else y :: insertDesc x ys

/-- Sort the row index newest-first (`sort_index(ascending=False)`, line 291). -/
def sortDesc (l : List Int) : List Int := l.foldr insertDesc []

/-- A fully stringified table: one header record plus data records, as it
stands just before `to_csv`. -/
structure StrTable where
  header : List Str
  rows : List (List Str)
deriving DecidableEq, Repr

/-- The formatter (lines 291-314): sort rows newest-first, turn the date index
into a first column named Date, render each date and observation as a string
(`strftime` and the float formatter, abstracted as `fmtDate` and `render`),
sanitize every column name, and fill absent cells with the empty string
(`fillna`). -/
def formatTable (t : CombinedTable) (fmtDate : Int → Str) (render : Rat → Str) :
    StrTable :=
  { header := (("Date".data) :: t.feeds.map (fun nf => nf.1)).map sanitizeCol
    rows := (sortDesc t.rows).map (fun d =>
      fmtDate d :: t.feeds.map (fun nf =>
        match nf.2 d with
        | some q => render q
        | none => [])) }

/-- All cells of a table, header included. -/
def tableCells (t : StrTable) : List Str := t.header ++ t.rows.flatten

/-- A cell that `to_csv` writes verbatim, without quoting: no separator, no
newline, no quote character. Every cell the pipeline produces (ISO dates,
float renderings, empty strings, sanitized names) satisfies this. -/
def csvSafe (c : Str) : Prop :=
  ',' ∉ c ∧ '\n' ∉ c ∧ '\r' ∉ c ∧ '\"' ∉ c

instance decCsvSafe : DecidablePred csvSafe := fun c =>
  decidable_of_iff (',' ∉ c ∧ '\n' ∉ c ∧ '\r' ∉ c ∧ '\"' ∉ c) Iff.rfl

/-- One CSV record: fields joined by commas. -/
def csvLine : List Str → Str
  | [] => []
  | [c] => c
  | c :: cs => c ++ ',' :: csvLine cs

/-- Records each terminated by a newline (pandas `to_csv` ends every record,
the last one included, with a line terminator). -/
def linesJoin : List Str → Str
  | [] => []
  | l :: ls => l ++ '\n' :: linesJoin ls

/-- CSV serialization (`combined_df.to_csv(index=False)`, line 326): one
header record, then the data records, no index column. -/
def toCsv (t : StrTable) : Str :=
  linesJoin ((t.header :: t.rows).map csvLine)

/-- Modelled from the spec: re-parsing the CSV "as a table with explicit
empty-string handling" (the reader half of the round-trip property; the
repository itself never reads the CSV back). Records are split on newlines,
blank records are dropped, the first record is the header, fields are split
on commas, and an empty field stays the empty string rather than becoming a
missing-value marker. -/
def parseCsv (s : Str) : Option StrTable :=
  match (splitSep '\n' s).filter (fun l => !l.isEmpty) with
  | [] => none
  | h :: rest => some { header := splitSep ',' h, rows := rest.map (splitSep ',') }

/-- The metadata envelope (lines 333-339). -/
structure Metadata where
  date_generated : Str
  period_days : Nat
  start_date : Int
  end_date : Int
  data_summary : List (Str × Str)
deriving DecidableEq

/-- Assembling the metadata envelope (lines 333-339): the generation
timestamp is the only field read from the clock at this point. -/
def makeMetadata (now : Str) (e : Int) (summary : List (Str × Str)) : Metadata :=
  { date_generated := now, period_days := PERIOD_DAYS,
    start_date := startDate e, end_date := e, data_summary := summary }

/-- The merge-format-serialize steps as one function of the feed data and the
window (lines 277-326). -/
def pipelineCsv (data : FeedData) (e : Int) (fmtDate : Int → Str)
    (render : Rat → Str) : Str :=
  toCsv (formatTable (mergeTable data (startDate e) e) fmtDate render)

/-- Both outputs `main` hands to the publisher: the CSV text and the metadata
envelope, as functions of the clock reading `now`, the window and the data. -/
def mainOutputs (now : Str) (e : Int) (data : FeedData)
    (summary : List (Str × Str)) (fmtDate : Int → Str) (render : Rat → Str) :
    Str × Metadata :=
  (pipelineCsv data e fmtDate render, makeMetadata now e summary)

/-- Concrete feed data for witnesses of the publish-failure theorem. -/
def w5data : FeedData := [("GLD".data, fun _ => none)]

/-- Concrete HTTP 500 outcome for witnesses of the publish-failure theorem. -/
def w5post : PostOutcome := .response 500 ("Internal Server Error".data) none

/-- Concrete feed data for the round-trip witness. -/
def w8data : FeedData :=
  [("A-1".data, fun d => if d = 0 then some ((3 : Rat) / 2) else none)]

/-- Concrete date renderer for the round-trip witness. -/
def w8fmt : Int → Str :=
  fun d => if d = 0 then "2026-01-01".data else "2026-01-02".data

/-- Concrete observation renderer for the round-trip witness. -/
def w8render : Rat → Str := fun _ => "1.5".data

/-! Helper lemmas about the daily calendar. -/

theorem dateRange_length (s e : Int) : (dateRange s e).length = (e - s + 1).toNat := by
  unfold dateRange
  rw [List.length_map, List.length_range]

theorem mem_dateRange (s e d : Int) : d ∈ dateRange s e ↔ s ≤ d ∧ d ≤ e := by
  unfold dateRange
  rw [List.mem_map]
  constructor
  · rintro ⟨i, hi, rfl⟩
    rw [List.mem_range] at hi
    omega
  · intro h
    refine ⟨(d - s).toNat, ?_, ?_⟩
    · rw [List.mem_range]
      omega
    · omega

theorem dateRange_nodup (s e : Int) : (dateRange s e).Nodup := by
  unfold dateRange
  refine List.Nodup.map ?_ (List.nodup_range _)
  intro a b h
  have h2 : s + (a : Int) = s + (b : Int) := h
  omega

/-- C1: for every configured date window, the Combined Table built by the
merge step has exactly one row per calendar day in the window (inclusive,
daily frequency, no gaps), regardless of which feeds contributed a Series:
its row index is the full calendar of the window, its length is
`PERIOD_DAYS`, and each day occurs exactly once (days outside the window
occur zero times). -/
theorem calendar_rows_exact (e : Int) (data : FeedData) :
    (mergeTable data (startDate e) e).rows = dateRange (startDate e) e ∧
    (mergeTable data (startDate e) e).rows.length = PERIOD_DAYS ∧
    ∀ d : Int, (mergeTable data (startDate e) e).rows.count d =
      if startDate e ≤ d ∧ d ≤ e then 1 else 0 := by
  refine ⟨rfl, ?_, ?_⟩
  · show (dateRange (startDate e) e).length = PERIOD_DAYS
    rw [dateRange_length]
    simp [startDate, PERIOD_DAYS]
  · intro d
    show (dateRange (startDate e) e).count d = _
    by_cases h : startDate e ≤ d ∧ d ≤ e
    · rw [if_pos h]
      exact List.count_eq_one_of_mem (dateRange_nodup _ _)
        ((mem_dateRange _ _ _).mpr h)
    · rw [if_neg h]
      exact List.count_eq_zero.mpr (fun hc => h ((mem_dateRange _ _ _).mp hc))

/-! The column-name sanitizer. -/

theorem replaceChar_append (old : Char) (new a b : Str) :
    replaceChar old new (a ++ b) = replaceChar old new a ++ replaceChar old new b := by
  induction a with
  | nil => rfl
  | cons c cs ih => simp [replaceChar, ih]

/-- C2 counterexample: on the input column name caret-V-I-X the formatter
deletes the caret, while the claim's transformation (every occurrence of
dash, caret, dot substituted by an underscore) would keep an underscore in
its place; the two disagree. -/
theorem sanitize_claim_cex :
    sanitizeCol ("^VIX".data) = ("VIX".data) ∧
    sanitizeColSpec ("^VIX".data) = ("_VIX".data) ∧
    sanitizeCol ("^VIX".data) ≠ sanitizeColSpec ("^VIX".data) :=
  ⟨by decide, by decide, by decide⟩

/-- C2 amended: the formatter sanitizes every column name per character,
replacing each dash and each dot with an underscore and deleting each caret;
all other characters are kept unchanged. -/
theorem sanitize_charwise_description (s : Str) : sanitizeCol s = sanitizeCharwise s := by
  induction s with
  | nil => rfl
  | cons c cs ih =>
    show replaceChar '.' ['_'] (replaceChar '^' []
      ((if c = '-' then ['_'] else [c]) ++ replaceChar '-' ['_'] cs)) = _
    rw [replaceChar_append, replaceChar_append]
    show _ ++ sanitizeCol cs = _
    rw [ih, sanitizeCharwise]
    by_cases h1 : c = '-'
    · subst h1; rfl
    · by_cases h2 : c = '^'
      · subst h2; rfl
      · by_cases h3 : c = '.'
        · subst h3; rfl
        · simp [replaceChar, h1, h2, h3]

/-! The V2TX line parser. -/

/-- C4: the volatility-index line parser skips every line that fails to
parse and keeps going (the loop is exactly a filterMap over the lines after
the header); the well-formed line 02.01.2026;123;45.67 yields the date
2026-01-02 (read from the first field in day.month.year format) paired with
the value 45.67 (read from the third field); the malformed line bad;line
contributes nothing, and mixing it with a valid line leaves the valid line's
parse intact. -/
theorem v2tx_line_parsing :
    (∀ lines : List Str, parseV2TXLines lines = List.filterMap parseV2TXLine lines) ∧
    parseV2TXLine ("02.01.2026;123;45.67".data) =
      some (⟨2026, 1, 2⟩, (4567 : Rat) / 100) ∧
    parseV2TXLine ("bad;line".data) = none ∧
    parseV2TXLines [("bad;line".data), ("02.01.2026;123;45.67".data)] =
      [(⟨2026, 1, 2⟩, (4567 : Rat) / 100)] := by
  refine ⟨?_, by with_unfolding_all rfl, by decide, by with_unfolding_all rfl⟩
  intro lines
  induction lines with
  | nil => rfl
  | cons l ls ih =>
    show (match parseV2TXLine l with
      | some p => p :: parseV2TXLines ls
      | none => parseV2TXLines ls) = _
    cases h : parseV2TXLine l <;> simp [List.filterMap_cons, h, ih]

/-- C10: a line whose semicolon split does not have exactly three fields is
skipped by the parser, whatever its fields contain. -/
theorem v2tx_requires_three_fields (line : Str)
    (h : (splitSep ';' line).length ≠ 3) : parseV2TXLine line = none := by
  simp [parseV2TXLine, h]

/-- Witness for C10 at a line with four fields whose first and third fields
are a valid date and a valid value: it is still skipped. -/
theorem v2tx_requires_three_fields_witness :
    (splitSep ';' ("02.01.2026;123;45.67;9".data)).length ≠ 3 ∧
    parseDMY (stripWs ((splitSep ';' ("02.01.2026;123;45.67;9".data)).getD 0 [])) =
      some ⟨2026, 1, 2⟩ ∧
    pyFloat (stripWs ((splitSep ';' ("02.01.2026;123;45.67;9".data)).getD 2 [])) =
      some ((4567 : Rat) / 100) ∧
    parseV2TXLine ("02.01.2026;123;45.67;9".data) = none :=
  ⟨by decide, by with_unfolding_all rfl, by with_unfolding_all rfl,
   v2tx_requires_three_fields _ (by decide)⟩

/-! The FRED request window. -/

/-- C3 counterexample: at day ordinal 0 the start query parameter of the
FRED URL is day -29 (a 30-day lookback), while the run's configured
start_date is day -199 (a 200-day lookback); the requested start date does
not equal the run's start_date. -/
theorem fred_window_claim_cex : (fredUrlWindow 0).1 ≠ (runWindow 0).1 := by decide

/-- C3 amended: for every series identifier the macro-series fetcher builds
its URL with an end parameter equal to the run's end_date but a start
parameter equal to end_date minus 29 days (main passes days_back = 30),
which differs from the run's start_date of end_date minus 199 days. -/
theorem fred_window_actual (today : Int) (seriesId : Str) (fmt : Int → Str) :
    fredUrlWindow today = (today - 29, today) ∧
    runWindow today = (today - 199, today) ∧
    (fredUrlWindow today).2 = (runWindow today).2 ∧
    (fredUrlWindow today).1 ≠ (runWindow today).1 ∧
    fredUrl seriesId fmt today =
      ("https://fred.stlouisfed.org/graph/fredgraph.csv?id=".data) ++ seriesId ++
      ("&cosd=".data) ++ fmt (today - 29) ++ ("&coed=".data) ++ fmt today := by
  refine ⟨?_, ?_, ?_, ?_, ?_⟩
  · show (today - ((30 : Nat) - 1 : Int), today) = _
    norm_num
  · show (today - ((200 : Int) - 1), today) = _
    norm_num
  · rfl
  · show today - ((30 : Nat) - 1 : Int) ≠ today - ((200 : Int) - 1)
    omega
  · show _ ++ seriesId ++ _ ++ fmt (today - ((30 : Nat) - 1 : Int)) ++ _ ++ fmt today = _
    norm_num

/-! Error handling of the publisher and the top-level control flow. -/

theorem run_rows_nonempty (e : Int) (data : FeedData) :
    ((mergeTable data (startDate e) e).rows).isEmpty = false := by
  have hl : ((mergeTable data (startDate e) e).rows).length = PERIOD_DAYS := by
    show (dateRange (startDate e) e).length = _
    rw [dateRange_length]
    simp [startDate, PERIOD_DAYS]
  cases hr : (mergeTable data (startDate e) e).rows with
  | nil => rw [hr] at hl; simp [PERIOD_DAYS] at hl
  | cons a l => rfl

/-- C5: whenever the POST raises a transport-level error, the endpoint
answers with a non-200 status, or a 200 body fails to parse as JSON, the
publisher returns the failure value None instead of raising, the run did
attempt the publish, and the process exits with code 1. -/
theorem publish_failure_nonzero_exit (e : Int) (data : FeedData) (post : PostOutcome)
    (hdata : data.isEmpty = false) (hfail : isPublishFailureB post = true) :
    send_to_google_sheets post = none ∧
    (mainRun e data post).publishAttempted = true ∧
    exitCode (mainRun e data post) = 1 := by
  have hsend : send_to_google_sheets post = none := by
    cases post with
    | exn d => rfl
    | response status body j =>
      simp only [isPublishFailureB] at hfail
      simp only [send_to_google_sheets]
      by_cases h : status = 200
      · rw [if_pos h] at hfail ⊢
        exact Option.isNone_iff_eq_none.mp hfail
      · rw [if_neg h]
  have hrows := run_rows_nonempty e data
  refine ⟨hsend, ?_, ?_⟩ <;>
    simp [mainRun, exitCode, hdata, hrows, hsend]

/-- Witness for C5: one nonempty feed and an HTTP 500 response. -/
theorem publish_failure_nonzero_exit_witness :
    w5data.isEmpty = false ∧ isPublishFailureB w5post = true ∧
    (send_to_google_sheets w5post = none ∧
     (mainRun 0 w5data w5post).publishAttempted = true ∧
     exitCode (mainRun 0 w5data w5post) = 1) :=
  ⟨rfl, rfl, publish_failure_nonzero_exit 0 w5data w5post rfl rfl⟩

/-- C6: when the collected data mapping is empty, the run reports the
no-data condition and exits 1, and the publisher is never invoked. -/
theorem no_data_short_circuit (e : Int) (post : PostOutcome) :
    mainRun e [] post =
      { publishAttempted := false, success := false, noDataEarlyExit := true } ∧
    exitCode (mainRun e [] post) = 1 :=
  ⟨rfl, rfl⟩

/-- C7: when the destination endpoint URL configuration value is absent the
program exits 1 immediately, with no fetch and no publish attempted. -/
theorem missing_config_early_exit (e : Int) (data : FeedData) (post : PostOutcome) :
    (script none e data post).exitCode = 1 ∧
    (script none e data post).fetchAttempted = false ∧
    (script none e data post).publishAttempted = false :=
  ⟨rfl, rfl, rfl⟩

/-- C9: two runs over identical feed data and an identical window produce
byte-identical CSV text whatever the clock reads; of the metadata envelope,
every field except the generation timestamp is also identical, and the
timestamp is exactly the respective run's clock reading. -/
theorem pipeline_deterministic_modulo_timestamp (t1 t2 : Str) (e : Int)
    (data : FeedData) (summary : List (Str × Str)) (fmtDate : Int → Str)
    (render : Rat → Str) :
    (mainOutputs t1 e data summary fmtDate render).1 =
      (mainOutputs t2 e data summary fmtDate render).1 ∧
    (mainOutputs t1 e data summary fmtDate render).2.period_days =
      (mainOutputs t2 e data summary fmtDate render).2.period_days ∧
    (mainOutputs t1 e data summary fmtDate render).2.start_date =
      (mainOutputs t2 e data summary fmtDate render).2.start_date ∧
    (mainOutputs t1 e data summary fmtDate render).2.end_date =
      (mainOutputs t2 e data summary fmtDate render).2.end_date ∧
    (mainOutputs t1 e data summary fmtDate render).2.data_summary =
      (mainOutputs t2 e data summary fmtDate render).2.data_summary ∧
    (mainOutputs t1 e data summary fmtDate render).2.date_generated = t1 ∧
    (mainOutputs t2 e data summary fmtDate render).2.date_generated = t2 :=
  ⟨rfl, rfl, rfl, rfl, rfl, rfl, rfl⟩

/-! CSV serialization round-trip. -/

theorem splitSepP_not_mem (sep : Char) (a : Str) (h : sep ∉ a) :
    splitSepP sep a = (a, []) := by
  induction a with
  | nil => rfl
  | cons c cs ih =>
    have hc : ¬c = sep := fun hcs => h (hcs ▸ List.mem_cons_self c cs)
    have hcs : sep ∉ cs := fun hm => h (List.mem_cons_of_mem c hm)
    simp [splitSepP, hc, ih hcs]

theorem splitSep_not_mem (sep : Char) (a : Str) (h : sep ∉ a) :
    splitSep sep a = [a] := by
  unfold splitSep
  rw [splitSepP_not_mem sep a h]

theorem splitSepP_append (sep : Char) (a l : Str) (h : sep ∉ a) :
    splitSepP sep (a ++ l) = (a ++ (splitSepP sep l).1, (splitSepP sep l).2) := by
  induction a with
  | nil => rfl
  | cons c cs ih =>
    have hc : ¬c = sep := fun hcs => h (hcs ▸ List.mem_cons_self c cs)
    have hcs : sep ∉ cs := fun hm => h (List.mem_cons_of_mem c hm)
    simp [splitSepP, hc, ih hcs]

theorem splitSep_append_cons (sep : Char) (a l : Str) (h : sep ∉ a) :
    splitSep sep (a ++ sep :: l) = a :: splitSep sep l := by
  unfold splitSep
  rw [splitSepP_append sep a (sep :: l) h]
  simp [splitSepP]

theorem csvLine_cons_cons (a b : Str) (t : List Str) :
    csvLine (a :: b :: t) = a ++ ',' :: csvLine (b :: t) := rfl

theorem splitSep_csvLine (cells : List Str) (hne : cells ≠ [])
    (hsafe : ∀ c ∈ cells, ',' ∉ c) : splitSep ',' (csvLine cells) = cells := by
  induction cells with
  | nil => exact absurd rfl hne
  | cons a rest ih =>
    cases rest with
    | nil => exact splitSep_not_mem ',' a (hsafe a (List.mem_cons_self a []))
    | cons b t =>
      rw [csvLine_cons_cons,
        splitSep_append_cons ',' a _ (hsafe a (List.mem_cons_self a _)),
        ih (List.cons_ne_nil b t) (fun c hc => hsafe c (List.mem_cons_of_mem a hc))]

theorem mem_csvLine (x : Char) (cells : List Str) (hx : x ∈ csvLine cells) :
    x = ',' ∨ ∃ c ∈ cells, x ∈ c := by
  induction cells with
  | nil => simp [csvLine] at hx
  | cons a rest ih =>
    cases rest with
    | nil => exact Or.inr ⟨a, List.mem_cons_self a [], hx⟩
    | cons b t =>
      rw [csvLine_cons_cons] at hx
      rcases List.mem_append.mp hx with h | h
      · exact Or.inr ⟨a, List.mem_cons_self a _, h⟩
      · rcases List.mem_cons.mp h with h | h
        · exact Or.inl h
        · rcases ih h with h | ⟨c, hc, hxc⟩
          · exact Or.inl h
          · exact Or.inr ⟨c, List.mem_cons_of_mem a hc, hxc⟩

theorem splitSep_linesJoin (ls : List Str) (h : ∀ l ∈ ls, '\n' ∉ l) :
    splitSep '\n' (linesJoin ls) = ls ++ [[]] := by
  induction ls with
  | nil => rfl
  | cons l rest ih =>
    show splitSep '\n' (l ++ '\n' :: linesJoin rest) = _
    rw [splitSep_append_cons '\n' l _ (h l (List.mem_cons_self l rest)),
      ih (fun x hx => h x (List.mem_cons_of_mem l hx))]
    rfl

theorem csvLine_ne_nil (a : Str) (rest : List Str) (h : a ≠ [] ∨ rest ≠ []) :
    csvLine (a :: rest) ≠ [] := by
  cases rest with
  | nil =>
    have : a ≠ [] := h.resolve_right (fun hr => hr rfl)
    simpa [csvLine] using this
  | cons b t =>
    rw [csvLine_cons_cons]
    simp

theorem mem_insertDesc (x y : Int) (l : List Int) :
    x ∈ insertDesc y l ↔ x = y ∨ x ∈ l := by
  induction l with
  | nil => simp [insertDesc]
  | cons a as ih =>
    unfold insertDesc
    split_ifs with hle
    · simp
    · simp only [List.mem_cons, ih]
      tauto

theorem mem_sortDesc (x : Int) (l : List Int) : x ∈ sortDesc l ↔ x ∈ l := by
  induction l with
  | nil => simp [sortDesc]
  | cons a as ih =>
    show x ∈ insertDesc a (sortDesc as) ↔ _
    rw [mem_insertDesc, ih, List.mem_cons]

/-- Round-trip for any stringified table whose cells are CSV-safe and whose
records serialize to nonblank lines. -/
theorem strTable_roundtrip (t : StrTable)
    (hhead : t.header ≠ [])
    (hsafe : ∀ c ∈ tableCells t, csvSafe c)
    (hrows : ∀ r ∈ t.rows, r ≠ [])
    (hlines : ∀ l ∈ t.header :: t.rows, csvLine l ≠ []) :
    parseCsv (toCsv t) = some t := by
  have hcell : ∀ l ∈ t.header :: t.rows, ∀ c ∈ l, csvSafe c := by
    intro l hl c hc
    apply hsafe
    unfold tableCells
    rcases List.mem_cons.mp hl with h | h
    · exact h ▸ List.mem_append_left _ hc
    · exact List.mem_append_right _ (List.mem_flatten.mpr ⟨l, h, hc⟩)
  have hnl : ∀ line ∈ (t.header :: t.rows).map csvLine, '\n' ∉ line := by
    intro line hline hmem
    obtain ⟨l, hl, rfl⟩ := List.mem_map.mp hline
    rcases mem_csvLine _ _ hmem with h | ⟨c, hc, hxc⟩
    · exact absurd h (by decide)
    · exact (hcell l hl c hc).2.1 hxc
  unfold parseCsv toCsv
  rw [splitSep_linesJoin _ hnl, List.filter_append]
  have h1 : ((t.header :: t.rows).map csvLine).filter (fun l => !l.isEmpty) =
      (t.header :: t.rows).map csvLine := by
    rw [List.filter_eq_self]
    intro line hline
    obtain ⟨l, hl, rfl⟩ := List.mem_map.mp hline
    have hne := hlines l hl
    cases hcl : csvLine l with
    | nil => exact absurd hcl hne
    | cons x xs => rfl
  have h2 : ([[]] : List Str).filter (fun l => !l.isEmpty) = [] := rfl
  rw [h1, h2, List.append_nil, List.map_cons]
  show Option.some (StrTable.mk (splitSep ',' (csvLine t.header))
    ((t.rows.map csvLine).map (splitSep ','))) = some t
  rw [splitSep_csvLine t.header hhead
    (fun c hc => (hcell _ (List.mem_cons_self _ _) c hc).1)]
  rw [List.map_map]
  have hid : t.rows.map (splitSep ',' ∘ csvLine) = t.rows := by
    have := List.map_congr_left (l := t.rows)
      (f := splitSep ',' ∘ csvLine) (g := fun r => r)
      (fun r hr => splitSep_csvLine r (hrows r hr)
        (fun c hc => (hcell r (List.mem_cons_of_mem _ hr) c hc).1))
    rw [this, List.map_id']
  rw [hid]

/-- C8: for every Combined Table produced by the merge and format steps
(cells rendered to strings, empty cells filled with the empty string),
serializing to CSV with one header record and no index column and re-parsing
with explicit empty-string handling yields the very same table, provided the
rendered cells are CSV-safe strings and rendered dates are nonempty (which
ISO dates and pandas float renderings always are). -/
theorem csv_roundtrip_pipeline (data : FeedData) (s e : Int)
    (fmtDate : Int → Str) (render : Rat → Str)
    (hsafe : ∀ c ∈ tableCells (formatTable (mergeTable data s e) fmtDate render),
      csvSafe c)
    (hdate : ∀ d ∈ (mergeTable data s e).rows, fmtDate d ≠ []) :
    parseCsv (toCsv (formatTable (mergeTable data s e) fmtDate render)) =
      some (formatTable (mergeTable data s e) fmtDate render) := by
  apply strTable_roundtrip _ _ hsafe
  · intro r hr
    obtain ⟨d, hd, rfl⟩ := List.mem_map.mp hr
    simp
  · intro l hl
    rcases List.mem_cons.mp hl with h | h
    · subst h
      show csvLine ((("Date".data) :: (mergeTable data s e).feeds.map
        (fun nf => nf.1)).map sanitizeCol) ≠ []
      rw [List.map_cons]
      apply csvLine_ne_nil
      left
      decide
    · obtain ⟨d, hd, rfl⟩ := List.mem_map.mp h
      apply csvLine_ne_nil
      left
      exact hdate d ((mem_sortDesc d _).mp hd)
  · show (("Date".data) :: (mergeTable data s e).feeds.map
      (fun nf => nf.1)).map sanitizeCol ≠ []
    simp

/-- Witness for C8 at a two-day window with one feed that has one
observation and one gap. -/
theorem csv_roundtrip_pipeline_witness :
    (∀ c ∈ tableCells (formatTable (mergeTable w8data 0 1) w8fmt w8render),
      csvSafe c) ∧
    (∀ d ∈ (mergeTable w8data 0 1).rows, w8fmt d ≠ []) ∧
    parseCsv (toCsv (formatTable (mergeTable w8data 0 1) w8fmt w8render)) =
      some (formatTable (mergeTable w8data 0 1) w8fmt w8render) :=
  ⟨by decide, by decide,
   csv_roundtrip_pipeline w8data 0 1 w8fmt w8render (by decide) (by decide)⟩

end MarketData
